import Mathlib

/-!
Verification of the snipp web application's request-processing core.

The Go sources are embedded shallowly: pure functions become Lean functions,
the Go `map[string]string` of the validator becomes an association list (with
`Option` distinguishing the nil map), handlers and middleware become explicit
state-passing functions, and external collaborators (bcrypt, the compiled
email regexp, the user table, the scs session manager, the nosurf token
check) are either passed in as oracles or modelled from the specification
where their code is not part of this repository.
-/

set_option autoImplicit false

namespace Snipp

/-! ### Validator (src/internal/validator/validator.go)

The Go `Validator` holds `FieldErrors map[string]string`.  A Go map is
modelled as an association list; `none` models the nil map (the zero value),
which `len` treats as empty but which panics on assignment. -/

/-- A Go `map[string]string` value: `none` is the nil map. -/
abbrev GoMap := Option (List (String × String))

/-- Map read `m[k]` on the underlying entry list (first entry for the key). -/
def mapLookup : List (String × String) → String → Option String
  | [], _ => none
  | (k', m') :: rest, k => if k' = k then some m' else mapLookup rest k

/-- Map write `m[k] = v` on the underlying entry list (replace or append). -/
def mapSet : List (String × String) → String → String → List (String × String)
  | [], k, m => [(k, m)]
  | (k', m') :: rest, k, m => if k' = k then (k, m) :: rest else (k', m') :: mapSet rest k m

/-- Go `len` on a map: the nil map has length 0. -/
def goMapLen : GoMap → Nat
  | none => 0
  | some l => l.length

/-- Go map read: reading from the nil map yields the zero value (absent). -/
def goMapLookup : GoMap → String → Option String
  | none, _ => none
  | some l, k => mapLookup l k

/-- Go map assignment `m[k] = v`: assigning to the nil map panics,
modelled as `none`. -/
def goMapAssign : GoMap → String → String → Option GoMap
  | none, _, _ => none
  | some l, k, m => some (some (mapSet l k m))

/-- Go `type Validator struct { FieldErrors map[string]string }` from
src/internal/validator/validator.go. -/
structure Validator where
  FieldErrors : GoMap
deriving Repr, DecidableEq

/-- Go `func (v *Validator) Valid() bool { return len(v.FieldErrors) == 0 }`. -/
def Validator.Valid (v : Validator) : Bool :=
  goMapLen v.FieldErrors == 0

/-- Go `AddFieldError`: allocate the map if nil, then insert only when no entry
exists for the key.  The outer `Option` is the panic monad for the nil-map
assignment (never hit, thanks to the allocation guard). -/
def Validator.AddFieldError (v : Validator) (key message : String) : Option Validator :=
  let m0 : GoMap :=
    match v.FieldErrors with
    | none => some []
    | some l => some l
  match goMapLookup m0 key with
  | some _ => some { v with FieldErrors := m0 }
  | none => (goMapAssign m0 key message).map (fun m1 => { v with FieldErrors := m1 })

/-- Go `CheckField`: add the field error only when the check is not ok. -/
def Validator.CheckField (v : Validator) (ok : Bool) (key message : String) : Option Validator :=
  if !ok then v.AddFieldError key message else some v

/-! ### Validation predicates (src/internal/validator/validator.go) -/

/-- Go `unicode/utf8.RuneCountInString`: the number of Unicode code points. -/
def RuneCountInString (value : String) : Nat :=
  value.data.length

/-- Go `func MaxChars(value string, n int) bool`. -/
def MaxChars (value : String) (n : Int) : Bool :=
  decide ((RuneCountInString value : Int) ≤ n)

/-- Go `func MinChars(value string, n int) bool`. -/
def MinChars (value : String) (n : Int) : Bool :=
  decide (n ≤ (RuneCountInString value : Int))

/-- The number of bytes of the UTF-8 encoding of the string — what a
byte-based length check (`len(value)` in Go) would measure. -/
def utf8Len (value : String) : Nat :=
  (value.data.map Char.utf8Size).sum

/-- ASCII white space as recognised by Go's `unicode.IsSpace`
(space, tab, newline, vertical tab, form feed, carriage return). -/
def isGoSpace (c : Char) : Bool :=
  c == ' ' || c == '\t' || c == '\n' || c == Char.ofNat 11 || c == Char.ofNat 12 || c == '\r'

/-- Go `strings.TrimSpace` (restricted to ASCII white space). -/
def TrimSpace (value : String) : String :=
  String.mk (((value.data.dropWhile isGoSpace).reverse.dropWhile isGoSpace).reverse)

/-- Go `func NotBlank(value string) bool { return strings.TrimSpace(value) != "" }`. -/
def NotBlank (value : String) : Bool :=
  TrimSpace value != ""

/-- Go `func PermittedValues[T comparable](value T, permittedValues ...T) bool`,
via `slices.Contains`. -/
def PermittedValues {T : Type} [DecidableEq T] (value : T) (permittedValues : List T) : Bool :=
  decide (value ∈ permittedValues)

/-! ### Enhanced validator (src/GO_WEB_DEVELOPMENT_GUIDE.md, §4 "Enhanced
Validation Framework")

The guide, CHANGELOG 0.9.0 and README all document a `Validator` carrying
`NonFieldErrors []string` next to `FieldErrors`, with
`Valid() { return len(v.FieldErrors) == 0 && len(v.NonFieldErrors) == 0 }`
and `AddNonFieldError` appending.  The field-error map is modelled here in
its allocated form; the nil-map behaviour is covered by `Validator` above. -/

structure GValidator where
  NonFieldErrors : List String := []
  FieldErrors : List (String × String) := []
deriving Repr, DecidableEq

/-- Go `Valid()` of the guide's enhanced validator: both collections empty. -/
def GValidator.Valid (v : GValidator) : Bool :=
  v.FieldErrors.length == 0 && v.NonFieldErrors.length == 0

/-- Go `AddNonFieldError`: append to the non-field error list. -/
def GValidator.AddNonFieldError (v : GValidator) (message : String) : GValidator :=
  { v with NonFieldErrors := v.NonFieldErrors ++ [message] }

/-- Go `AddFieldError` of the enhanced validator: first failure wins, as in
src/internal/validator/validator.go. -/
def GValidator.AddFieldError (v : GValidator) (key message : String) : GValidator :=
  match mapLookup v.FieldErrors key with
  | some _ => v
  | none => { v with FieldErrors := v.FieldErrors ++ [(key, message)] }

/-- Go `CheckField` of the enhanced validator. -/
def GValidator.CheckField (v : GValidator) (ok : Bool) (key message : String) : GValidator :=
  if !ok then v.AddFieldError key message else v

/-! ### Sessions (scs session manager, as used by the handlers)

The scs session manager is an external dependency; its per-session
operations are modelled from the specification (§3 Session, §4.2, §4.7):
a session is an opaque token plus a key-value mapping, `Put` overwrites,
`Remove` deletes, `GetInt`/`PopString` return the zero value when the key
is absent, and `RenewToken` issues a fresh token (old invalidated).
Freshness is modelled by incrementing the token, so the renewed token
always differs from the one it replaces. -/

/-- A session value: user ids are ints, flash messages are strings. -/
inductive SVal where
  | int (n : Int)
  | str (s : String)
deriving Repr, DecidableEq

/-- Key-value read on session data (first entry for the key). -/
def lookupKV : List (String × SVal) → String → Option SVal
  | [], _ => none
  | (k', v) :: rest, k => if k' = k then some v else lookupKV rest k

/-- Delete every entry for the key. -/
def removeKV : List (String × SVal) → String → List (String × SVal)
  | [], _ => []
  | (k', v) :: rest, k => if k' = k then removeKV rest k else (k', v) :: removeKV rest k

/-- Modelled from the spec: a session is an opaque token plus its key-value
data (expiry is outside the claims). -/
structure Session where
  token : Nat
  data : List (String × SVal)
deriving Repr, DecidableEq

/-- Go `sessionManager.Put`: store under the key, overwriting any prior value. -/
def sessionPut (s : Session) (k : String) (v : SVal) : Session :=
  { s with data := (k, v) :: removeKV s.data k }

/-- Go `sessionManager.Remove`. -/
def sessionRemove (s : Session) (k : String) : Session :=
  { s with data := removeKV s.data k }

/-- Go `sessionManager.GetInt`: the stored int, or 0 when absent or not an int. -/
def sessionGetInt (s : Session) (k : String) : Int :=
  match lookupKV s.data k with
  | some (.int n) => n
  | _ => 0

/-- Go `sessionManager.PopString`: read and delete in one session operation;
returns "" when the key is absent or not a string. -/
def PopString (s : Session) (k : String) : String × Session :=
  match lookupKV s.data k with
  | none => ("", s)
  | some v =>
    ((match v with | .str m => m | .int _ => ""), ⟨s.token, removeKV s.data k⟩)

/-- Modelled from the spec: `sessionManager.RenewToken` rotates the session
token — the old token is invalidated and a fresh one issued.  Freshness is
modelled by incrementing, so the new token differs from the old one. -/
def RenewToken (s : Session) : Session :=
  { s with token := s.token + 1 }

/-! ### The HTTP pipeline model

Requests, responses, handlers and the middleware of
src/GO_WEB_DEVELOPMENT_GUIDE.md (v0.10 `routes`, `preventCSRF`,
`authenticate`, `requireAuthentication`).  The store of created snippets
stands for the mutable application state a handler may change. -/

inductive Method where
  | GET | POST | HEAD | OPTIONS | TRACE | PUT | DELETE | PATCH
deriving Repr, DecidableEq

/-- nosurf's safe (read-only) methods: GET, HEAD, OPTIONS, TRACE. -/
def isSafeMethod : Method → Bool
  | .GET => true
  | .HEAD => true
  | .OPTIONS => true
  | .TRACE => true
  | _ => false

/-- An inbound request: method, the CSRF cookie bound to the session, the
submitted hidden-field CSRF token, the session cookie, and the
authentication context value (`isAuthenticatedContextKey`), which is absent
on every fresh request and is only ever set by the `authenticate`
middleware. -/
structure Request where
  method : Method
  cookieCSRF : Option String := none
  submittedCSRF : Option String := none
  sessionCookie : Option Nat := none
  ctxIsAuth : Option Bool := none
deriving Repr, DecidableEq

/-- What a handler writes back: status, headers, redirect target, rendered
template and the error collections of the form attached to the render. -/
structure HttpResponse where
  status : Nat
  headers : List (String × String) := []
  location : Option String := none
  page : Option String := none
  formNonFieldErrors : List String := []
  formFieldErrors : List (String × String) := []
deriving Repr, DecidableEq

/-- A created snippet row (what `snippets.Insert` persists). -/
structure SnippetRow where
  title : String
  content : String
  expires : Int
deriving Repr, DecidableEq

/-- The mutable application store behind the handlers. -/
abbrev Store := List SnippetRow

/-- Outcome of running a handler or middleware chain. -/
structure HResult where
  session : Session
  store : Store
  resp : HttpResponse
deriving Repr, DecidableEq

/-- A handler: request plus loaded session plus store, to an outcome. -/
abbrev Handler := Request → Session → Store → HResult

/-- Go `http.Redirect(w, r, url, http.StatusSeeOther)`. -/
def redirectResp (status : Nat) (url : String) : HttpResponse :=
  { status := status, location := some url }

/-- nosurf's failure response: 403 Forbidden. -/
def forbiddenResp : HttpResponse :=
  { status := 403 }

/-- Go `app.serverError`: generic 500. -/
def serverErrorResp : HttpResponse :=
  { status := 500 }

/-- Go `preventCSRF` (guide §2, wrapping nosurf).  Modelled from the spec
(§4.3): the verification performed by the external nosurf package requires,
on every unsafe method, a submitted token exactly matching the cookie-bound
value; on mismatch or absence it responds 403 Forbidden before the wrapped
handler runs.  Safe methods pass through (token issuance is outside the
claims). -/
def preventCSRF (next : Handler) : Handler := fun r s st =>
  if isSafeMethod r.method then next r s st
  else
    match r.cookieCSRF, r.submittedCSRF with
    | some c, some t => if t = c then next r s st else ⟨s, st, forbiddenResp⟩
    | _, _ => ⟨s, st, forbiddenResp⟩

/-- Go `isAuthenticated` (guide v0.10): the context value under
`isAuthenticatedContextKey`, or false when unset or not a bool. -/
def isAuthenticated (r : Request) : Bool :=
  match r.ctxIsAuth with
  | none => false
  | some b => b

/-- Go `authenticate` middleware (guide v0.10, §1).  `existsQ` is the
`users.Exists` database oracle: `none` models a query error (→ 500),
`some b` the reported existence. -/
def authenticate (existsQ : Int → Option Bool) (next : Handler) : Handler := fun r s st =>
  let id := sessionGetInt s "authenticatedUserID"
  if id = 0 then next r s st
  else
    match existsQ id with
    | none => ⟨s, st, serverErrorResp⟩
    | some true => next { r with ctxIsAuth := some true } s st
    | some false => next r s st

/-- Go `requireAuthentication` (guide §3): unauthenticated requests are
redirected (303) to the login route and the handler is skipped;
authenticated ones get `Cache-Control: no-store` set on the response the
handler produces. -/
def requireAuthentication (next : Handler) : Handler := fun r s st =>
  if !(isAuthenticated r) then ⟨s, st, redirectResp 303 "/user/login"⟩
  else
    let out := next r s st
    { out with resp := { out.resp with headers := ("Cache-Control", "no-store") :: out.resp.headers } }

/-- The guide v0.10 `dynamic` chain past session loading:
`preventCSRF` then `authenticate`. -/
def dynamicChain (existsQ : Int → Option Bool) (h : Handler) : Handler :=
  preventCSRF (authenticate existsQ h)

/-- The guide `protected` chain: `dynamic` extended with the route guard. -/
def protectedChain (existsQ : Int → Option Bool) (h : Handler) : Handler :=
  dynamicChain existsQ (requireAuthentication h)

/-- The handlers that `routes` wires up, kept abstract. -/
structure HandlerSet where
  home : Handler
  snippetView : Handler
  userSignup : Handler
  userSignupPost : Handler
  userLogin : Handler
  userLoginPost : Handler
  snippetCreate : Handler
  snippetCreatePost : Handler
  userLogoutPost : Handler

/-- A registered route: method, pattern, composed pipeline. -/
structure Route where
  method : Method
  pattern : String
  pipeline : Handler

/-- The route table of the guide v0.10 `routes()`: every dynamic route goes
through session load, `preventCSRF` and `authenticate`; the protected ones
additionally through `requireAuthentication`.  (The static file route has
no middleware and serves only GET; it is outside the dynamic table.) -/
def routesTable (existsQ : Int → Option Bool) (hs : HandlerSet) : List Route :=
  [ ⟨.GET, "/\x7b$\x7d", dynamicChain existsQ hs.home⟩,
    ⟨.GET, "/snippet/view/\x7bid\x7d", dynamicChain existsQ hs.snippetView⟩,
    ⟨.GET, "/user/signup", dynamicChain existsQ hs.userSignup⟩,
    ⟨.POST, "/user/signup", dynamicChain existsQ hs.userSignupPost⟩,
    ⟨.GET, "/user/login", dynamicChain existsQ hs.userLogin⟩,
    ⟨.POST, "/user/login", dynamicChain existsQ hs.userLoginPost⟩,
    ⟨.GET, "/snippet/create", protectedChain existsQ hs.snippetCreate⟩,
    ⟨.POST, "/snippet/create", protectedChain existsQ hs.snippetCreatePost⟩,
    ⟨.POST, "/user/logout", protectedChain existsQ hs.userLogoutPost⟩ ]

/-- The persisted sessions of the session store, keyed by token. -/
abbrev SessionStore := List (Nat × List (String × SVal))

/-- Token read in the session store. -/
def lookupTok : SessionStore → Nat → Option (List (String × SVal))
  | [], _ => none
  | (t', d) :: rest, t => if t' = t then some d else lookupTok rest t

/-- A token outside the store. -/
def freshToken (store : SessionStore) : Nat :=
  (store.map Prod.fst).foldr (fun a b => max a b) 0 + 1

/-- Modelled from the spec (§4.2): `sessionManager.LoadAndSave` resolves the
session token from the incoming cookie; if the cookie is absent or the token
unknown, it initialises an empty session under a freshly issued token. -/
def loadSession (store : SessionStore) (cookie : Option Nat) : Session :=
  match cookie with
  | none => ⟨freshToken store, []⟩
  | some t =>
    match lookupTok store t with
    | some d => ⟨t, d⟩
    | none => ⟨freshToken store, []⟩

/-- Run a composed pipeline behind session loading. -/
def serveRoute (sessions : SessionStore) (pipeline : Handler) (r : Request) (st : Store) : HResult :=
  pipeline r (loadSession sessions r.sessionCookie) st

/-! ### User authentication (src/GO_WEB_DEVELOPMENT_GUIDE.md §1, §5)

`UserModel.Authenticate` looks the stored hash up by email; an unknown
email (`sql.ErrNoRows`) returns `ErrInvalidCredentials` at once, a known
email is followed by `bcrypt.CompareHashAndPassword`, whose mismatch also
returns `ErrInvalidCredentials`.  bcrypt and the compiled `EmailRX` are
external collaborators, passed in as oracles. -/

/-- A row of the `users` table. -/
structure UserRec where
  id : Int
  email : String
  hashedPassword : String
deriving Repr, DecidableEq

/-- The query `SELECT id, hashed_password FROM users WHERE email = ?`. -/
def findUser : List UserRec → String → Option UserRec
  | [], _ => none
  | u :: rest, email => if u.email = email then some u else findUser rest email

/-- Go `UserModel.Authenticate`.  `bcryptEq hash password` is the oracle for
`bcrypt.CompareHashAndPassword` succeeding.  First component: `some id` on
success, `none` for `ErrInvalidCredentials` (either failure mode).  Second
component: whether the bcrypt comparison was invoked at all — on an unknown
email the source returns before any comparison. -/
def Authenticate (bcryptEq : String → String → Bool) (db : List UserRec)
    (email password : String) : Option Int × Bool :=
  match findUser db email with
  | none => (none, false)
  | some u =>
    if bcryptEq u.hashedPassword password then (some u.id, true)
    else (none, true)

/-- A render of a page carrying a form's error collections, at a status. -/
def renderResp (status : Nat) (page : String) (form : GValidator) : HttpResponse :=
  { status := status, page := some page,
    formNonFieldErrors := form.NonFieldErrors, formFieldErrors := form.FieldErrors }

/-- The `userLoginPost` validation sequence (guide §5): non-blank email,
email pattern match (`emailOK` is the oracle for `validator.Matches` with
the compiled `EmailRX`), non-blank password. -/
def loginFormValidate (emailOK : String → Bool) (email password : String) : GValidator :=
  ((({} : GValidator).CheckField (NotBlank email) "email"
        "This field cannot be blank").CheckField
      (emailOK email) "email" "This field must be a valid email address").CheckField
    (NotBlank password) "password" "This field cannot be blank"

/-- Go `userLoginPost` (guide §5), after a successful form decode: validate;
on an invalid form render login.tmpl at 422; authenticate; on
`ErrInvalidCredentials` attach the non-field error and render login.tmpl at
422; on success renew the session token, then store the authenticated user
id, then redirect 303.  (The decode-failure 400 and the database-error 500
branches are outside the claims.) -/
def userLoginPost (emailOK : String → Bool) (bcryptEq : String → String → Bool)
    (db : List UserRec) (email password : String) (s : Session) : Session × HttpResponse :=
  let form := loginFormValidate emailOK email password
  if !form.Valid then (s, renderResp 422 "login.tmpl" form)
  else
    match (Authenticate bcryptEq db email password).1 with
    | none =>
      let form' := form.AddNonFieldError "Email address or password is incorrect"
      (s, renderResp 422 "login.tmpl" form')
    | some userID =>
      let s1 := RenewToken s
      let s2 := sessionPut s1 "authenticatedUserID" (.int userID)
      (s2, redirectResp 303 "/snippet/create")

/-- Go `userLogoutPost` (guide §5): renew the session token, remove the stored
user id, set the flash notification, redirect 303 to the home page. -/
def userLogoutPost (s : Session) : Session × HttpResponse :=
  let s1 := RenewToken s
  let s2 := sessionRemove s1 "authenticatedUserID"
  let s3 := sessionPut s2 "flash" (.str "You have been logged out successfully.")
  (s3, redirectResp 303 "/")

/-! ### Snippet creation and flash rendering (src/cmd/web/handlers.go) -/

/-- A render of create.tmpl carrying the plain validator's field errors. -/
def vRenderResp (status : Nat) (page : String) (form : Validator) : HttpResponse :=
  { status := status, page := some page,
    formFieldErrors :=
      match form.FieldErrors with
      | none => []
      | some l => l }

/-- Go `snippetCreatePost` (src/cmd/web/handlers.go), after a successful form
decode: run the four field checks, render create.tmpl at 422 when the form
is invalid, otherwise insert the snippet (`Insert` modelled as an append
returning the next id), set the flash message and redirect 303 to the new
snippet's page.  The outer `Option` is the panic monad of the embedded
`validator.Validator` map operations. -/
def snippetCreatePost (title content : String) (expires : Int)
    (s : Session) (st : Store) : Option HResult :=
  let form0 : Validator := ⟨none⟩
  (form0.CheckField (NotBlank title) "title" "This field cannot be blank").bind fun f1 =>
  (f1.CheckField (MaxChars title 100) "title"
      "This field cannot be more than 100 characters long").bind fun f2 =>
  (f2.CheckField (NotBlank content) "content" "This field cannot be blank").bind fun f3 =>
  (f3.CheckField (PermittedValues expires [1, 7, 365]) "expires"
      "This field must be one of the following values: 1, 7, or 365").map fun f4 =>
  if !f4.Valid then ⟨s, st, vRenderResp 422 "create.tmpl" f4⟩
  else
    let id : Int := (st.length : Int) + 1
    let st1 := st ++ [⟨title, content, expires⟩]
    let s1 := sessionPut s "flash" (.str "Snippet successfully created!")
    ⟨s1, st1, redirectResp 303 ("/snippet/view/" ++ toString id)⟩

/-- The flash side of `newTemplateData` (guide §2):
`Flash: app.sessionManager.PopString(r.Context(), "flash")` — the rendered
`Flash` value and the session as persisted afterwards. -/
def newTemplateDataFlash (s : Session) : String × Session :=
  PopString s "flash"

/-! ### Helper lemmas on the session data operations -/

theorem lookupKV_removeKV_self (d : List (String × SVal)) (k : String) :
    lookupKV (removeKV d k) k = none := by
  induction d with
  | nil => rfl
  | cons p rest ih =>
    obtain ⟨k', v⟩ := p
    by_cases h : k' = k
    · simp [removeKV, h, ih]
    · simp [removeKV, lookupKV, h, ih]

theorem lookupKV_removeKV_other (d : List (String × SVal)) (k k' : String) (h : k' ≠ k) :
    lookupKV (removeKV d k') k = lookupKV d k := by
  induction d with
  | nil => rfl
  | cons p rest ih =>
    obtain ⟨k0, v⟩ := p
    by_cases h0 : k0 = k'
    · subst h0
      simp [removeKV, lookupKV, h, ih]
    · simp only [removeKV, lookupKV, h0, if_false, ite_false]
      by_cases h1 : k0 = k <;> simp [lookupKV, h1, ih]

/-! ### The claims -/

/-- C1: by the repository's documentation (guide §4 "Enhanced Validation
Framework", CHANGELOG 0.9.0, README) a form is valid iff both of its error
collections — the field-error map and the non-field-error list — are empty,
and this holds of the enhanced validator the guide records; but the
checked-in src/internal/validator/validator.go has no non-field error list
at all and its `Valid()` inspects only the field-error map, so at a form
state holding exactly one non-field error the documented validator is
invalid while validator.go's `Valid` reports true. -/
theorem valid_iff_both_collections_empty :
    (∀ g : GValidator, g.Valid = true ↔ (g.FieldErrors = [] ∧ g.NonFieldErrors = []))
  ∧ GValidator.Valid ⟨["Email address or password is incorrect"], []⟩ = false
  ∧ Validator.Valid ⟨some []⟩ = true
  ∧ Validator.Valid ⟨none⟩ = true := by
  refine ⟨?_, rfl, rfl, rfl⟩
  intro g
  simp [GValidator.Valid, Bool.and_eq_true, List.length_eq_zero, and_comm]

/-- C7: recording a field error for a key that already has an entry leaves
the validator (and in particular the existing entry) unchanged, whether the
error arrives through `AddFieldError` directly or through `CheckField`:
the first recorded failure for a field is never overwritten. -/
theorem addFieldError_first_wins (v : Validator) (key m1 m2 : String)
    (h : goMapLookup v.FieldErrors key = some m1) :
    v.AddFieldError key m2 = some v
  ∧ (∀ ok : Bool, v.CheckField ok key m2 = some v)
  ∧ goMapLookup ((v.AddFieldError key m2).getD v).FieldErrors key = some m1 := by
  obtain ⟨fe⟩ := v
  cases fe with
  | none => simp [goMapLookup] at h
  | some l =>
    have h' : mapLookup l key = some m1 := h
    have hadd : Validator.AddFieldError ⟨some l⟩ key m2 = some ⟨some l⟩ := by
      simp [Validator.AddFieldError, goMapLookup, h']
    refine ⟨hadd, fun ok => ?_, ?_⟩
    · cases ok <;> simp [Validator.CheckField, hadd]
    · simp only [hadd, Option.getD_some]
      exact h

/-- C7 witness: a validator already holding an entry for "title" is left
unchanged by a second `AddFieldError` and by a failing `CheckField`. -/
theorem addFieldError_first_wins_witness :
    Validator.AddFieldError ⟨some [("title", "first")]⟩ "title" "second"
      = some ⟨some [("title", "first")]⟩
  ∧ Validator.CheckField ⟨some [("title", "first")]⟩ false "title" "second"
      = some ⟨some [("title", "first")]⟩ := by
  have h := addFieldError_first_wins ⟨some [("title", "first")]⟩ "title" "first" "second"
    (by decide)
  exact ⟨h.1, h.2.1 false⟩

/-- C9: `MaxChars`/`MinChars` measure length in Unicode code points, not
bytes: `MaxChars value n` is true iff `value` has at most `n` code points,
`MinChars value n` iff at least `n`; in particular `MaxChars "héllo" 5`
holds (5 code points, even though the UTF-8 encoding has 6 bytes) and
`MaxChars "hello!" 5` does not. -/
theorem maxChars_minChars_code_points :
    (∀ (value : String) (n : Int), MaxChars value n = true ↔ (RuneCountInString value : Int) ≤ n)
  ∧ (∀ (value : String) (n : Int), MinChars value n = true ↔ n ≤ (RuneCountInString value : Int))
  ∧ MaxChars "héllo" 5 = true
  ∧ MaxChars "hello!" 5 = false
  ∧ RuneCountInString "héllo" = 5
  ∧ utf8Len "héllo" = 6 := by
  refine ⟨fun v n => by simp [MaxChars], fun v n => by simp [MinChars], ?_, ?_, ?_, ?_⟩ <;> decide

/-- C10: the zero-value validator is safe at the public interface:
`Valid` on the nil field-error map is true, `AddFieldError` on the nil map
allocates and then inserts (no panic), and `CheckField` never panics on the
zero value either. -/
theorem zero_value_validator_safe :
    Validator.Valid ⟨none⟩ = true
  ∧ (∀ key message : String,
      Validator.AddFieldError ⟨none⟩ key message = some ⟨some [(key, message)]⟩)
  ∧ (∀ (ok : Bool) (key message : String),
      (Validator.CheckField ⟨none⟩ ok key message).isSome = true) := by
  refine ⟨rfl, fun key message => rfl, fun ok key message => ?_⟩
  cases ok <;> rfl

/-- When all three login checks pass, the validation leaves the form's
validator empty. -/
theorem loginFormValidate_pass (emailOK : String → Bool) (email password : String)
    (hb : NotBlank email = true) (ho : emailOK email = true) (hp : NotBlank password = true) :
    loginFormValidate emailOK email password = {} := by
  simp [loginFormValidate, GValidator.CheckField, hb, ho, hp]

/-- The users table with one registered user, for concrete login runs. -/
def loginDb : List UserRec := [⟨1, "alice@example.com", "bchash:correct-horse"⟩]

/-- A concrete executable stand-in for the bcrypt comparison oracle: the
stored hash matches exactly the password it was derived from. -/
def bcryptEq0 : String → String → Bool := fun hash password => hash == "bchash:" ++ password

/-- C2 counterexample: on a login attempt with the unknown email
"bob@example.com" the code returns `ErrInvalidCredentials` at once and —
contrary to the claim — performs no comparison against the candidate
password (second component `false`), whereas the wrong-password attempt for
the registered "alice@example.com" does perform the comparison. -/
theorem unknown_email_performs_no_comparison :
    Authenticate bcryptEq0 loginDb "bob@example.com" "battery-staple" = (none, false)
  ∧ Authenticate bcryptEq0 loginDb "alice@example.com" "wrong-pass" = (none, true) := by
  decide

/-- C2 (amended): with a well-formed login form, an unknown email and a
wrong password are indistinguishable in the response — both attach exactly
the one non-field error "Email address or password is incorrect" and
respond 422 — but the unknown-email path returns before any password
comparison, while the wrong-password path does run the constant-time
comparison. -/
theorem login_failure_modes_identical (emailOK : String → Bool)
    (bcryptEq : String → String → Bool) (db : List UserRec)
    (e1 p1 e2 p2 : String) (s : Session) (u : UserRec)
    (hb1 : NotBlank e1 = true) (ho1 : emailOK e1 = true) (hp1 : NotBlank p1 = true)
    (hb2 : NotBlank e2 = true) (ho2 : emailOK e2 = true) (hp2 : NotBlank p2 = true)
    (hu : findUser db e1 = none)
    (hk : findUser db e2 = some u) (hw : bcryptEq u.hashedPassword p2 = false) :
    (userLoginPost emailOK bcryptEq db e1 p1 s).2.status = 422
  ∧ (userLoginPost emailOK bcryptEq db e2 p2 s).2.status = 422
  ∧ (userLoginPost emailOK bcryptEq db e1 p1 s).2.formNonFieldErrors
      = ["Email address or password is incorrect"]
  ∧ (userLoginPost emailOK bcryptEq db e1 p1 s).2.formNonFieldErrors
      = (userLoginPost emailOK bcryptEq db e2 p2 s).2.formNonFieldErrors
  ∧ (Authenticate bcryptEq db e1 p1).2 = false
  ∧ (Authenticate bcryptEq db e2 p2).2 = true := by
  have hv1 := loginFormValidate_pass emailOK e1 p1 hb1 ho1 hp1
  have hv2 := loginFormValidate_pass emailOK e2 p2 hb2 ho2 hp2
  have r1 : userLoginPost emailOK bcryptEq db e1 p1 s
      = (s, renderResp 422 "login.tmpl"
          (GValidator.AddNonFieldError {} "Email address or password is incorrect")) := by
    simp [userLoginPost, hv1, GValidator.Valid, Authenticate, hu]
  have r2 : userLoginPost emailOK bcryptEq db e2 p2 s
      = (s, renderResp 422 "login.tmpl"
          (GValidator.AddNonFieldError {} "Email address or password is incorrect")) := by
    simp [userLoginPost, hv2, GValidator.Valid, Authenticate, hk, hw]
  refine ⟨by rw [r1]; rfl, by rw [r2]; rfl, by rw [r1]; rfl, by rw [r1, r2], ?_, ?_⟩
  · simp [Authenticate, hu]
  · simp [Authenticate, hk, hw]

/-- C2 witness: the amended theorem run at the concrete one-user table. -/
theorem login_failure_modes_identical_witness :
    (userLoginPost (fun _ => true) bcryptEq0 loginDb "bob@example.com" "battery-staple"
        ⟨0, []⟩).2.status = 422
  ∧ (userLoginPost (fun _ => true) bcryptEq0 loginDb "alice@example.com" "wrong-pass"
        ⟨0, []⟩).2.status = 422
  ∧ (userLoginPost (fun _ => true) bcryptEq0 loginDb "bob@example.com" "battery-staple"
        ⟨0, []⟩).2.formNonFieldErrors = ["Email address or password is incorrect"]
  ∧ (userLoginPost (fun _ => true) bcryptEq0 loginDb "bob@example.com" "battery-staple"
        ⟨0, []⟩).2.formNonFieldErrors
      = (userLoginPost (fun _ => true) bcryptEq0 loginDb "alice@example.com" "wrong-pass"
        ⟨0, []⟩).2.formNonFieldErrors
  ∧ (Authenticate bcryptEq0 loginDb "bob@example.com" "battery-staple").2 = false
  ∧ (Authenticate bcryptEq0 loginDb "alice@example.com" "wrong-pass").2 = true :=
  login_failure_modes_identical (fun _ => true) bcryptEq0 loginDb
    "bob@example.com" "battery-staple" "alice@example.com" "wrong-pass" ⟨0, []⟩
    ⟨1, "alice@example.com", "bchash:correct-horse"⟩
    (by decide) rfl (by decide) (by decide) rfl (by decide)
    (by decide) (by decide) (by decide)

/-- C4: the session token is rotated at every privilege boundary: a
successful login renews the token before storing the authenticated user id
— afterwards the token differs from the pre-login token and the session
holds the id — and logout renews the token and removes the stored id —
afterwards the token differs and the stored user id is absent. -/
theorem session_token_rotated_at_privilege_boundaries (emailOK : String → Bool)
    (bcryptEq : String → String → Bool) (db : List UserRec)
    (email password : String) (s : Session) (u : UserRec)
    (hb : NotBlank email = true) (ho : emailOK email = true) (hp : NotBlank password = true)
    (hk : findUser db email = some u) (hok : bcryptEq u.hashedPassword password = true) :
    (userLoginPost emailOK bcryptEq db email password s).1.token ≠ s.token
  ∧ sessionGetInt (userLoginPost emailOK bcryptEq db email password s).1
      "authenticatedUserID" = u.id
  ∧ (userLoginPost emailOK bcryptEq db email password s).2
      = redirectResp 303 "/snippet/create"
  ∧ (∀ s0 : Session,
        (userLogoutPost s0).1.token ≠ s0.token
      ∧ lookupKV (userLogoutPost s0).1.data "authenticatedUserID" = none
      ∧ (userLogoutPost s0).2 = redirectResp 303 "/") := by
  have hv := loginFormValidate_pass emailOK email password hb ho hp
  have r1 : userLoginPost emailOK bcryptEq db email password s
      = (sessionPut (RenewToken s) "authenticatedUserID" (.int u.id),
         redirectResp 303 "/snippet/create") := by
    simp [userLoginPost, hv, GValidator.Valid, Authenticate, hk, hok]
  refine ⟨?_, ?_, by rw [r1], fun s0 => ⟨?_, ?_, rfl⟩⟩
  · rw [r1]
    simp [sessionPut, RenewToken]
  · rw [r1]
    simp [sessionGetInt, sessionPut, lookupKV]
  · simp [userLogoutPost, sessionPut, sessionRemove, RenewToken]
  · show lookupKV (("flash", SVal.str "You have been logged out successfully.")
        :: removeKV (removeKV s0.data "authenticatedUserID") "flash")
        "authenticatedUserID" = none
    rw [lookupKV, if_neg (by decide),
      lookupKV_removeKV_other _ _ _ (by decide), lookupKV_removeKV_self]

/-- C4 witness: a concrete successful login from session token 5, and the
logout conclusions at a session holding user id 1. -/
theorem session_token_rotated_witness :
    (userLoginPost (fun _ => true) bcryptEq0 loginDb "alice@example.com" "correct-horse"
        ⟨5, []⟩).1.token ≠ (⟨5, []⟩ : Session).token
  ∧ sessionGetInt (userLoginPost (fun _ => true) bcryptEq0 loginDb "alice@example.com"
        "correct-horse" ⟨5, []⟩).1 "authenticatedUserID" = 1
  ∧ (userLoginPost (fun _ => true) bcryptEq0 loginDb "alice@example.com" "correct-horse"
        ⟨5, []⟩).2 = redirectResp 303 "/snippet/create"
  ∧ (∀ s0 : Session,
        (userLogoutPost s0).1.token ≠ s0.token
      ∧ lookupKV (userLogoutPost s0).1.data "authenticatedUserID" = none
      ∧ (userLogoutPost s0).2 = redirectResp 303 "/") :=
  session_token_rotated_at_privilege_boundaries (fun _ => true) bcryptEq0 loginDb
    "alice@example.com" "correct-horse" ⟨5, []⟩
    ⟨1, "alice@example.com", "bchash:correct-horse"⟩
    (by decide) rfl (by decide) (by decide) (by decide)

/-- On an unsafe method with an absent or mismatched token, the CSRF guard
blocks with 403 on its own: the wrapped handler contributes nothing and no
state changes. -/
theorem preventCSRF_blocks (h : Handler) (r : Request) (s : Session) (st : Store)
    (hm : isSafeMethod r.method = false)
    (hbad : r.submittedCSRF = none ∨ r.cookieCSRF = none
      ∨ r.submittedCSRF ≠ r.cookieCSRF) :
    preventCSRF h r s st = ⟨s, st, forbiddenResp⟩ := by
  unfold preventCSRF
  rw [hm]
  simp only [Bool.false_eq_true, if_false]
  rcases hbad with h1 | h1 | h1
  · rw [h1]
    cases r.cookieCSRF <;> rfl
  · rw [h1]
  · cases hc : r.cookieCSRF with
    | none => rfl
    | some c =>
      cases hs' : r.submittedCSRF with
      | none => rfl
      | some t =>
        have hne : ¬ (t = c) := fun he => h1 (by rw [hs', hc, he])
        simp [hne]

/-- C3: every route of the route table registered for an unsafe (POST)
method runs behind the CSRF guard, so a submission whose token is absent or
does not match the session-bound cookie value receives 403 Forbidden with
the session and the store unchanged — the outcome does not depend on the
wrapped handler, which is never invoked. -/
theorem unsafe_bad_csrf_rejected_before_handler (existsQ : Int → Option Bool)
    (hs : HandlerSet) (route : Route) (r : Request) (s : Session) (st : Store)
    (hmem : route ∈ routesTable existsQ hs) (hpost : route.method = .POST)
    (hrm : r.method = .POST)
    (hbad : r.submittedCSRF = none ∨ r.cookieCSRF = none
      ∨ r.submittedCSRF ≠ r.cookieCSRF) :
    route.pipeline r s st = ⟨s, st, forbiddenResp⟩ := by
  have hunsafe : isSafeMethod r.method = false := by rw [hrm]; rfl
  have key : ∀ h : Handler, preventCSRF h r s st = ⟨s, st, forbiddenResp⟩ :=
    fun h => preventCSRF_blocks h r s st hunsafe hbad
  simp only [routesTable, List.mem_cons, List.not_mem_nil, or_false] at hmem
  rcases hmem with h1 | h1 | h1 | h1 | h1 | h1 | h1 | h1 | h1 <;> subst h1 <;>
    first
      | exact absurd hpost (by decide)
      | exact key _

/-- A handler that mutates nothing and responds 200, for concrete runs. -/
def constHandler : Handler := fun _ s st => ⟨s, st, { status := 200 }⟩

/-- A handler set wiring `constHandler` everywhere. -/
def hs0 : HandlerSet :=
  ⟨constHandler, constHandler, constHandler, constHandler, constHandler,
   constHandler, constHandler, constHandler, constHandler⟩

/-- A user-existence oracle that reports every id as existing. -/
def existsQ0 : Int → Option Bool := fun _ => some true

/-- C3 witness: the POST login route of the concrete table rejects a
mismatched token with 403, leaving session and store untouched. -/
theorem unsafe_bad_csrf_rejected_witness :
    (Route.mk .POST "/user/login" (dynamicChain existsQ0 hs0.userLoginPost)).pipeline
      { method := .POST, cookieCSRF := some "tok-a", submittedCSRF := some "tok-b" }
      ⟨3, []⟩ [] = ⟨⟨3, []⟩, [], forbiddenResp⟩ :=
  unsafe_bad_csrf_rejected_before_handler existsQ0 hs0
    ⟨.POST, "/user/login", dynamicChain existsQ0 hs0.userLoginPost⟩
    { method := .POST, cookieCSRF := some "tok-a", submittedCSRF := some "tok-b" }
    ⟨3, []⟩ [] (by simp [routesTable]) rfl rfl (Or.inr (Or.inr (by decide)))

/-- C5: the route guard redirects every unauthenticated request with 303 to
the login route without invoking the wrapped handler; an authenticated
request keeps the handler's effects with `Cache-Control: no-store` added;
and a protected-route request with no session cookie at all — served
through the full protected chain over a freshly initialised empty session —
yields the 303 redirect to login (in particular, never a 500). -/
theorem route_guard_redirects_or_serves :
    (∀ (next : Handler) (r : Request) (s : Session) (st : Store),
        isAuthenticated r = false →
        requireAuthentication next r s st = ⟨s, st, redirectResp 303 "/user/login"⟩)
  ∧ (∀ (next : Handler) (r : Request) (s : Session) (st : Store),
        isAuthenticated r = true →
        (requireAuthentication next r s st).session = (next r s st).session
      ∧ (requireAuthentication next r s st).store = (next r s st).store
      ∧ (requireAuthentication next r s st).resp.status = (next r s st).resp.status
      ∧ ("Cache-Control", "no-store") ∈ (requireAuthentication next r s st).resp.headers)
  ∧ (∀ (existsQ : Int → Option Bool) (h : Handler) (sessions : SessionStore)
        (st : Store) (r : Request),
        r.sessionCookie = none → r.ctxIsAuth = none → isSafeMethod r.method = true →
        serveRoute sessions (protectedChain existsQ h) r st
          = ⟨loadSession sessions none, st, redirectResp 303 "/user/login"⟩) := by
  refine ⟨?_, ?_, ?_⟩
  · intro next r s st hauth
    simp [requireAuthentication, hauth]
  · intro next r s st hauth
    simp [requireAuthentication, hauth]
  · intro existsQ h sessions st r hc hx hm
    have hiso : isAuthenticated r = false := by simp [isAuthenticated, hx]
    simp [serveRoute, protectedChain, dynamicChain, preventCSRF, hm, authenticate,
      loadSession, hc, sessionGetInt, lookupKV, requireAuthentication, hiso]

/-- C5 witness: the three parts of the route-guard theorem at concrete
inputs (a fresh unauthenticated request, an authenticated one, and a
cookie-less request through the protected chain). -/
theorem route_guard_witness :
    requireAuthentication constHandler { method := .GET } ⟨0, []⟩ []
      = ⟨⟨0, []⟩, [], redirectResp 303 "/user/login"⟩
  ∧ ("Cache-Control", "no-store") ∈ (requireAuthentication constHandler
      { method := .GET, ctxIsAuth := some true } ⟨0, []⟩ []).resp.headers
  ∧ serveRoute [] (protectedChain existsQ0 constHandler) { method := .GET } []
      = ⟨loadSession [] none, [], redirectResp 303 "/user/login"⟩ :=
  ⟨route_guard_redirects_or_serves.1 constHandler { method := .GET } ⟨0, []⟩ [] rfl,
   (route_guard_redirects_or_serves.2.1 constHandler
      { method := .GET, ctxIsAuth := some true } ⟨0, []⟩ [] rfl).2.2.2,
   route_guard_redirects_or_serves.2.2 existsQ0 constHandler [] [] { method := .GET }
     rfl rfl rfl⟩

/-- C6: when the session carries a nonzero candidate user id that the user
store reports as not existing, the authentication resolver hands the
request on unchanged — same request (so it proceeds as unauthenticated),
same session (the stale stored id is not cleared), same store. -/
theorem stale_user_id_proceeds_unauthenticated (existsQ : Int → Option Bool)
    (next : Handler) (r : Request) (s : Session) (st : Store)
    (hnz : sessionGetInt s "authenticatedUserID" ≠ 0)
    (hex : existsQ (sessionGetInt s "authenticatedUserID") = some false)
    (hctx : r.ctxIsAuth = none) :
    authenticate existsQ next r s st = next r s st
  ∧ isAuthenticated r = false := by
  constructor
  · unfold authenticate
    rw [if_neg hnz, hex]
  · simp [isAuthenticated, hctx]

/-- C6 witness: a session storing the stale id 7, with an oracle denying
its existence, is passed through to the handler untouched. -/
theorem stale_user_id_witness :
    authenticate (fun _ => some false) constHandler { method := .GET }
        ⟨0, [("authenticatedUserID", .int 7)]⟩ []
      = constHandler { method := .GET } ⟨0, [("authenticatedUserID", .int 7)]⟩ []
  ∧ isAuthenticated { method := .GET } = false :=
  stale_user_id_proceeds_unauthenticated (fun _ => some false) constHandler
    { method := .GET } ⟨0, [("authenticatedUserID", .int 7)]⟩ [] (by decide) rfl rfl

/-- C8: a flash message is delivered to at most one subsequent render:
popping after putting returns exactly the stored message and deletes the
key, so a second pop observes nothing and changes nothing; and concretely,
after a successful `snippetCreatePost` the next `newTemplateData` render
pops exactly "Snippet successfully created!" and the render after that
observes none. -/
theorem flash_delivered_at_most_once :
    (∀ (s : Session) (msg : String),
        (PopString (sessionPut s "flash" (.str msg)) "flash").1 = msg
      ∧ lookupKV (PopString (sessionPut s "flash" (.str msg)) "flash").2.data "flash" = none
      ∧ PopString (PopString (sessionPut s "flash" (.str msg)) "flash").2 "flash"
          = ("", (PopString (sessionPut s "flash" (.str msg)) "flash").2))
  ∧ (∀ (title content : String) (expires : Int) (s : Session) (st : Store),
        NotBlank title = true → MaxChars title 100 = true → NotBlank content = true →
        PermittedValues expires [1, 7, 365] = true →
        ∃ out : HResult,
          snippetCreatePost title content expires s st = some out
        ∧ (newTemplateDataFlash out.session).1 = "Snippet successfully created!"
        ∧ newTemplateDataFlash (newTemplateDataFlash out.session).2
            = ("", (newTemplateDataFlash out.session).2)) := by
  have part1 : ∀ (s : Session) (msg : String),
      (PopString (sessionPut s "flash" (.str msg)) "flash").1 = msg
    ∧ lookupKV (PopString (sessionPut s "flash" (.str msg)) "flash").2.data "flash" = none
    ∧ PopString (PopString (sessionPut s "flash" (.str msg)) "flash").2 "flash"
        = ("", (PopString (sessionPut s "flash" (.str msg)) "flash").2) := by
    intro s msg
    have hl : lookupKV (sessionPut s "flash" (.str msg)).data "flash" = some (.str msg) := by
      simp [sessionPut, lookupKV]
    have hpop : PopString (sessionPut s "flash" (.str msg)) "flash"
        = (msg, ⟨s.token, removeKV (sessionPut s "flash" (.str msg)).data "flash"⟩) := by
      unfold PopString
      rw [hl]
      rfl
    refine ⟨by rw [hpop], ?_, ?_⟩
    · rw [hpop]
      exact lookupKV_removeKV_self _ _
    · rw [hpop]
      unfold PopString
      rw [lookupKV_removeKV_self]
  refine ⟨part1, ?_⟩
  intro title content expires s st h1 h2 h3 h4
  have hrun : snippetCreatePost title content expires s st
      = some ⟨sessionPut s "flash" (.str "Snippet successfully created!"),
          st ++ [⟨title, content, expires⟩],
          redirectResp 303 ("/snippet/view/" ++ toString ((st.length : Int) + 1))⟩ := by
    simp [snippetCreatePost, Validator.CheckField, h1, h2, h3, h4, Validator.Valid, goMapLen]
  refine ⟨_, hrun, (part1 s _).1, (part1 s _).2.2⟩

/-- C8 witness: the put-then-pop law at a concrete session, and the
create-then-render chain at a concrete submission. -/
theorem flash_delivered_witness :
    (PopString (sessionPut ⟨0, []⟩ "flash" (.str "hi")) "flash").1 = "hi"
  ∧ ∃ out : HResult,
      snippetCreatePost "t1" "c1" 7 ⟨0, []⟩ [] = some out
    ∧ (newTemplateDataFlash out.session).1 = "Snippet successfully created!"
    ∧ newTemplateDataFlash (newTemplateDataFlash out.session).2
        = ("", (newTemplateDataFlash out.session).2) :=
  ⟨(flash_delivered_at_most_once.1 ⟨0, []⟩ "hi").1,
   flash_delivered_at_most_once.2 "t1" "c1" 7 ⟨0, []⟩ []
     (by decide) (by decide) (by decide) (by decide)⟩

end Snipp
